import Mathlib

/-!
Verification of the gst-invoice-agent repository against its specification.

This file gives a shallow embedding, in Lean 4, of the parts of the
repository that the specification's testable properties talk about:

* `app/agents/gst_calculator.py`   — the stateless Tax Calculation Engine
* `app/agents/validator.py`        — the Input Validator
* `app/models/database.py`         — the persistence schema (as record types)
* `app/models/db_operations.py`    — CRUD helpers, invoice numbering
* `app/models/payment_operations.py` — the payment ledger
* `app/agents/invoice_agent_db.py` — the persisted Invoice Orchestrator
* `app/agents/auth_agent.py`       — the Authentication Agent
* `app/agents/search_agent.py`     — the Search Agent
* `app/agents/security_agent.py`   — the Security Agent (rate limiting)
* `app/agents/audit_agent.py`      — the Audit Agent (its module import)

Python numbers are embedded as rationals (`ℚ`), Python strings either as
Lean `String`s or, where character-level operations matter, as `List Char`.
Database sessions are embedded as explicit state records threaded through
the operations; "now" (wall-clock time) is an explicit parameter.
-/

/-! ## Python primitives -/

/-- Floor of a rational as an integer, computed by flooring division of the
numerator by the denominator. -/
def ratFloor (x : ℚ) : ℤ := Int.fdiv x.num x.den

/-- Truncation toward zero, the behaviour of Python `int()` on a number. -/
def pyTrunc (x : ℚ) : ℤ := if x < 0 then -ratFloor (-x) else ratFloor x

/-- Round a rational to the nearest integer, ties to the even neighbour.
This models Python 3 `round`, whose documented tie-breaking rule is
round-half-to-even ("banker's rounding"). -/
def roundHalfEven (x : ℚ) : ℤ :=
  let n : ℤ := ratFloor x
  let f : ℚ := x - n
  if f < 1/2 then n
  else if 1/2 < f then n + 1
  else if n % 2 = 0 then n else n + 1

/-- Python `round(x, 2)`: round to 2 decimal places. -/
def pyRound2 (x : ℚ) : ℚ := (roundHalfEven (100 * x) : ℚ) / 100

deriving instance DecidableEq for Except

/-- Python truthiness of an optional string (absent or empty is falsy). -/
def strTruthy (o : Option String) : Bool :=
  match o with
  | none => false
  | some s => !s.isEmpty

/-- Python truthiness of an optional list (absent or empty is falsy). -/
def listTruthy {α : Type} (o : Option (List α)) : Bool :=
  match o with
  | none => false
  | some l => !l.isEmpty

/-! ## The Tax Calculation Engine (`app/agents/gst_calculator.py`)

An input item is a Python dict with (possibly missing) keys `name`,
`price`, `quantity`, `gst_rate`; missing keys are embedded as `none`. -/

namespace GSTCalculator

/-- An element of the `items` list passed to `validate` / `calculate`. -/
structure Item where
  name : Option String
  price : Option ℚ
  quantity : Option ℚ
  gst_rate : Option ℚ
deriving DecidableEq

/-- `VALID_RATES = [0, 5, 12, 18, 28]`. -/
def VALID_RATES : List ℚ := [0, 5, 12, 18, 28]

/-- The error strings one iteration of the validation loop appends for the
item at index `idx`, in source order: the four missing-field checks, then
the price, quantity and GST-rate checks. -/
def itemErrors (idx : ℕ) (item : Item) : List String :=
  (if item.name.isNone then ["Item " ++ toString idx ++ ": Missing \x27name\x27 field"] else []) ++
  (if item.price.isNone then ["Item " ++ toString idx ++ ": Missing \x27price\x27 field"] else []) ++
  (if item.quantity.isNone then ["Item " ++ toString idx ++ ": Missing \x27quantity\x27 field"] else []) ++
  (if item.gst_rate.isNone then ["Item " ++ toString idx ++ ": Missing \x27gst_rate\x27 field"] else []) ++
  (match item.price with
   | some p => if p ≤ 0 then ["Item " ++ toString idx ++ ": Price must be positive"] else []
   | none => []) ++
  (match item.quantity with
   | some q => if q ≤ 0 then ["Item " ++ toString idx ++ ": Quantity must be positive"] else []
   | none => []) ++
  (match item.gst_rate with
   | some r =>
       if r ∈ VALID_RATES then []
       else ["Item " ++ toString idx ++ ": GST rate must be one of [0, 5, 12, 18, 28]"]
   | none => [])

/-- The `for idx, item in enumerate(items)` loop of `validate`. -/
def validateLoop : ℕ → List Item → List String
  | _, [] => []
  | idx, item :: rest => itemErrors idx item ++ validateLoop (idx + 1) rest

/-- Return value of `validate`: `{'valid': ..., 'errors': ...}`. -/
structure Validation where
  valid : Bool
  errors : List String
deriving DecidableEq

/-- `GSTCalculator.validate(items)`. -/
def validate (items : List Item) : Validation :=
  if items.isEmpty then ⟨false, ["Items list cannot be empty"]⟩
  else
    let errors := validateLoop 0 items
    ⟨errors.isEmpty, errors⟩

/-- One element of the `item_details` list built by `calculate`. -/
structure LineResult where
  name : String
  price : ℚ
  quantity : ℚ
  gst_rate : ℚ
  subtotal : ℚ
  cgst : ℚ
  sgst : ℚ
  total_gst : ℚ
  total : ℚ
deriving DecidableEq

/-- Return value of `calculate`. -/
structure CalcResult where
  items : List LineResult
  subtotal : ℚ
  total_gst : ℚ
  grand_total : ℚ
  total_items : ℕ
  total_quantity : ℚ
deriving DecidableEq

/-- Raw (pre-rounding) subtotal of one item: `price * quantity`.
`calculate` only runs this after validation, which guarantees the fields
are present, so the `getD` defaults are never observable. -/
def rawSubtotal (item : Item) : ℚ := item.price.getD 0 * item.quantity.getD 0

/-- Raw GST of one item: `item_subtotal * (gst_rate / 100)`. -/
def rawGst (item : Item) : ℚ := rawSubtotal item * (item.gst_rate.getD 0 / 100)

/-- The per-item record appended to `item_details` by the calculation loop. -/
def calcLine (item : Item) : LineResult :=
  { name := item.name.getD ""
    price := item.price.getD 0
    quantity := item.quantity.getD 0
    gst_rate := item.gst_rate.getD 0
    subtotal := pyRound2 (rawSubtotal item)
    cgst := pyRound2 (rawGst item / 2)
    sgst := pyRound2 (rawGst item / 2)
    total_gst := pyRound2 (rawGst item)
    total := pyRound2 (rawSubtotal item + rawGst item) }

/-- `GSTCalculator.calculate(items)`: validates first and raises
`ValueError` (embedded as `Except.error`) listing every violation,
otherwise returns the per-item breakdown and the aggregate totals.
The running sums of the Python loop are embedded as list sums. -/
def calculate (items : List Item) : Except String CalcResult :=
  let validation := validate items
  if validation.valid then
    Except.ok
      { items := items.map calcLine
        subtotal := pyRound2 ((items.map rawSubtotal).sum)
        total_gst := pyRound2 ((items.map rawGst).sum)
        grand_total := pyRound2 ((items.map rawSubtotal).sum + (items.map rawGst).sum)
        total_items := items.length
        total_quantity := (items.map (fun item => item.quantity.getD 0)).sum }
  else
    Except.error ("Invalid input: " ++ String.intercalate ", " validation.errors)

/-- Whether a `calculate` call raised. -/
def isError (r : Except String CalcResult) : Bool :=
  match r with
  | Except.ok _ => false
  | Except.error _ => true

/-- `cgst` of the first line of a successful calculation (0 on error). -/
def firstCgst (r : Except String CalcResult) : ℚ :=
  match r with
  | Except.ok res =>
      match res.items with
      | [] => 0
      | line :: _ => line.cgst
  | Except.error _ => 0

/-- `total_gst` of a successful calculation (0 on error). -/
def totalGstOf (r : Except String CalcResult) : ℚ :=
  match r with
  | Except.ok res => res.total_gst
  | Except.error _ => 0

/-- `grand_total` of a successful calculation (0 on error). -/
def grandTotalOf (r : Except String CalcResult) : ℚ :=
  match r with
  | Except.ok res => res.grand_total
  | Except.error _ => 0

/-- `sgst` of the first line of a successful calculation (0 on error). -/
def firstSgst (r : Except String CalcResult) : ℚ :=
  match r with
  | Except.ok res =>
      match res.items with
      | [] => 0
      | line :: _ => line.sgst
  | Except.error _ => 0

/-- A well-formed item: all four fields present.  Used to state claims
about lists of fully-populated items. -/
structure WFItem where
  name : String
  price : ℚ
  quantity : ℚ
  gst_rate : ℚ

/-- View a well-formed item as a dict with all keys present. -/
def WFItem.toItem (w : WFItem) : Item :=
  ⟨some w.name, some w.price, some w.quantity, some w.gst_rate⟩

end GSTCalculator

/-! ## Python string helpers -/

/-- Python `str.lower()` (ASCII case folding, which covers every string the
claims exercise). -/
def pyLower (s : String) : String := String.mk (s.data.map Char.toLower)

/-- Python `str.upper()` (ASCII case folding). -/
def pyUpper (s : String) : String := String.mk (s.data.map Char.toUpper)

/-- Python `str.strip()`: drop leading and trailing whitespace. -/
def pyStrip (s : String) : String :=
  String.mk (((s.data.dropWhile Char.isWhitespace).reverse.dropWhile Char.isWhitespace).reverse)

/-- Whether `needle` occurs as a contiguous sublist of `haystack`. -/
def listIsInfix (needle : List Char) : List Char → Bool
  | [] => needle.isEmpty
  | c :: rest => List.isPrefixOf needle (c :: rest) || listIsInfix needle rest

/-- Python `needle in haystack` on strings: substring containment. -/
def pyContains (haystack needle : String) : Bool := listIsInfix needle.data haystack.data

/-! ## The Search Agent (`app/agents/search_agent.py`)

The agent operates on plain invoice dicts; the fields every filter reads
are embedded below.  The `datetime.now()`-derived bounds used by the
named date presets are supplied as an explicit environment record whose
fields hold the strings the Python code computes from "today". -/

namespace SearchAgent

/-- The `customer` sub-dict of an invoice as read by `search_by_customer`. -/
structure SCustomer where
  name : String
deriving DecidableEq

/-- One line item as read by `filter_by_gst_rate` / `search_by_item`. -/
structure SItem where
  name : String
  gst_rate : ℚ
deriving DecidableEq

/-- The `totals` sub-dict as read by `filter_by_amount_range`. -/
structure STotals where
  grand_total : ℚ
deriving DecidableEq

/-- An invoice record as consumed by the Search Agent. -/
structure SInvoice where
  invoice_number : String
  date : String
  customer : SCustomer
  items : List SItem
  totals : STotals
  payment_status : String
deriving DecidableEq

/-- The strings the preset branch of `filter_by_date_range` computes from
`datetime.now().date()`; modelled from the external `datetime` library as
an explicit environment (`today` is the formatted current date, the other
fields the formatted window starts). -/
structure DateEnv where
  today : String
  weekStart : String
  monthStart : String
  quarterStart : String
  yearStart : String
  last30Start : String

/-- The filter dictionary passed to `advanced_search`; absent keys are
`none`. -/
structure Filters where
  date_preset : Option String := none
  start_date : Option String := none
  end_date : Option String := none
  min_amount : Option ℚ := none
  max_amount : Option ℚ := none
  payment_statuses : Option (List String) := none
  gst_rates : Option (List ℚ) := none
  customer_query : Option String := none
  fuzzy_search : Option Bool := none
  invoice_number : Option String := none
  item_query : Option String := none

/-- `SearchAgent.filter_by_date_range`: preset values override the explicit
bounds; an invoice passes when its date string is within the bounds
(Python compares the `YYYY-MM-DD` strings lexicographically). -/
def filter_by_date_range (env : DateEnv) (invoices : List SInvoice)
    (start_date end_date preset : Option String) : List SInvoice :=
  if invoices.isEmpty then []
  else
    let bounds : Option String × Option String :=
      if preset = some "today" then (some env.today, some env.today)
      else if preset = some "this_week" then (some env.weekStart, some env.today)
      else if preset = some "this_month" then (some env.monthStart, some env.today)
      else if preset = some "this_quarter" then (some env.quarterStart, some env.today)
      else if preset = some "this_year" then (some env.yearStart, some env.today)
      else if preset = some "last_30_days" then (some env.last30Start, some env.today)
      else (start_date, end_date)
    let s := bounds.1
    let e := bounds.2
    if strTruthy s || strTruthy e then
      invoices.filter (fun inv =>
        !(strTruthy s && decide (inv.date < s.getD "")) &&
        !(strTruthy e && decide (e.getD "" < inv.date)))
    else invoices

/-- `SearchAgent.filter_by_amount_range`: inclusive min/max on
`totals.grand_total`. -/
def filter_by_amount_range (invoices : List SInvoice)
    (min_amount max_amount : Option ℚ) : List SInvoice :=
  if invoices.isEmpty then []
  else
    invoices.filter (fun inv =>
      !(min_amount.isSome && decide (inv.totals.grand_total < min_amount.getD 0)) &&
      !(max_amount.isSome && decide (max_amount.getD 0 < inv.totals.grand_total)))

/-- `SearchAgent.filter_by_payment_status`. -/
def filter_by_payment_status (invoices : List SInvoice)
    (statuses : List String) : List SInvoice :=
  if invoices.isEmpty || statuses.isEmpty then invoices
  else invoices.filter (fun inv => inv.payment_status ∈ statuses)

/-- `SearchAgent.filter_by_gst_rate`: keep invoices any of whose items
carries one of the requested rates. -/
def filter_by_gst_rate (invoices : List SInvoice)
    (gst_rates : List ℚ) : List SInvoice :=
  if invoices.isEmpty || gst_rates.isEmpty then invoices
  else invoices.filter (fun inv => inv.items.any (fun item => item.gst_rate ∈ gst_rates))

/-- `SearchAgent.search_by_customer`: case-insensitive substring match when
fuzzy, case-insensitive equality otherwise. -/
def search_by_customer (invoices : List SInvoice) (query : String)
    (fuzzy : Bool) : List SInvoice :=
  if invoices.isEmpty || query.isEmpty then invoices
  else
    let q := pyStrip (pyLower query)
    if fuzzy then invoices.filter (fun inv => pyContains (pyLower inv.customer.name) q)
    else invoices.filter (fun inv => pyLower inv.customer.name == q)

/-- `SearchAgent.search_by_invoice_number`: case-insensitive substring
match. -/
def search_by_invoice_number (invoices : List SInvoice)
    (query : String) : List SInvoice :=
  if invoices.isEmpty || query.isEmpty then invoices
  else
    let q := pyStrip (pyUpper query)
    invoices.filter (fun inv => pyContains (pyUpper inv.invoice_number) q)

/-- `SearchAgent.search_by_item`: case-insensitive substring match against
any line item name. -/
def search_by_item (invoices : List SInvoice) (query : String) : List SInvoice :=
  if invoices.isEmpty || query.isEmpty then invoices
  else
    let q := pyStrip (pyLower query)
    invoices.filter (fun inv => inv.items.any (fun item => pyContains (pyLower item.name) q))

/-- `SearchAgent.advanced_search`: thread the collection through each
filter, in source order, when the corresponding key is present (and, for
list/string-valued keys, truthy). -/
def advanced_search (env : DateEnv) (invoices : List SInvoice)
    (filters : Filters) : List SInvoice :=
  let result := invoices
  let result :=
    if strTruthy filters.date_preset || strTruthy filters.start_date ||
        strTruthy filters.end_date then
      filter_by_date_range env result filters.start_date filters.end_date filters.date_preset
    else result
  let result :=
    if filters.min_amount.isSome || filters.max_amount.isSome then
      filter_by_amount_range result filters.min_amount filters.max_amount
    else result
  let result :=
    if listTruthy filters.payment_statuses then
      filter_by_payment_status result (filters.payment_statuses.getD [])
    else result
  let result :=
    if listTruthy filters.gst_rates then
      filter_by_gst_rate result (filters.gst_rates.getD [])
    else result
  let result :=
    if strTruthy filters.customer_query then
      search_by_customer result (filters.customer_query.getD "")
        (filters.fuzzy_search.getD true)
    else result
  let result :=
    if strTruthy filters.invoice_number then
      search_by_invoice_number result (filters.invoice_number.getD "")
    else result
  let result :=
    if strTruthy filters.item_query then
      search_by_item result (filters.item_query.getD "")
    else result
  result

/-- The two-invoice fixture of the claim: one Paid invoice with grand
total 2360 and one Pending invoice with grand total 5600. -/
def paidInvoice : SInvoice :=
  ⟨"INV-2025-1001", "2025-02-01", ⟨"John Doe"⟩, [⟨"Laptop", 18⟩], ⟨2360⟩, "Paid"⟩

/-- The Pending invoice of the fixture. -/
def pendingInvoice : SInvoice :=
  ⟨"INV-2025-1002", "2025-02-15", ⟨"Jane Smith"⟩, [⟨"Mouse", 12⟩], ⟨5600⟩, "Pending"⟩

/-- The claim's filter dictionary. -/
def fixtureFilters : Filters := { payment_statuses := some ["Paid"], min_amount := some 10000 }

/-- A concrete date environment (irrelevant to the fixture: no date filter
key is present). -/
def fixtureEnv : DateEnv :=
  ⟨"2025-03-01", "2025-02-24", "2025-03-01", "2025-01-01", "2025-01-01", "2025-01-30"⟩

end SearchAgent

/-! ## The Security Agent (`app/agents/security_agent.py`)

`check_rate_limit` is in-memory and pure once `time.time()` is made an
explicit `now` parameter.  The per-identifier request log (a
`defaultdict(list)`) is embedded as an association list defaulting to
`[]`, and the blocked-IP set as a list. -/

namespace SecurityAgent

/-- One entry of the `RATE_LIMITS` table. -/
structure RateConfig where
  requests : ℕ
  window : ℕ
deriving DecidableEq

/-- `RATE_LIMITS`: requests allowed per time window, keyed by limit type. -/
def RATE_LIMITS : List (String × RateConfig) :=
  [("default", ⟨100, 60⟩), ("auth", ⟨5, 60⟩), ("search", ⟨30, 60⟩),
   ("export", ⟨10, 60⟩), ("email", ⟨20, 60⟩)]

/-- The agent's mutable state: request timestamps per identifier and the
blocked-IP set. -/
structure SecurityState where
  request_counts : List (String × List ℚ)
  blocked_ips : List String

/-- `self.request_counts[identifier]` (defaultdict: missing key is `[]`). -/
def getCounts (st : SecurityState) (identifier : String) : List ℚ :=
  (st.request_counts.lookup identifier).getD []

/-- Store a new timestamp list for an identifier (replacing any previous
binding). -/
def setCounts (st : SecurityState) (identifier : String) (l : List ℚ) : SecurityState :=
  { st with request_counts :=
      (identifier, l) :: st.request_counts.filter (fun p => p.1 ≠ identifier) }

/-- The dict returned by `check_rate_limit`; keys that a given branch does
not set are `none`. -/
structure RateResult where
  allowed : Bool
  reason : Option String := none
  retry_after : Option ℤ := none
  current_count : Option ℕ := none
  limit : Option ℕ := none
  remaining : Option ℤ := none
  reset_at : Option ℤ := none
deriving DecidableEq

/-- `SecurityAgent.check_rate_limit(identifier, limit_type)` at time
`now`: a blocked identifier is always rejected with a fixed 3600-second
retry-after; otherwise timestamps older than `now - window` are pruned,
and the request is rejected (with a retry-after computed from the oldest
in-window timestamp, floored at 1) when the pruned count has reached the
limit, else recorded and accepted. -/
def check_rate_limit (st : SecurityState) (identifier : String)
    (limit_type : String) (now : ℚ) : RateResult × SecurityState :=
  if identifier ∈ st.blocked_ips then
    ({ allowed := false, reason := some "IP blocked", retry_after := some 3600 }, st)
  else
    let config := (RATE_LIMITS.lookup limit_type).getD ⟨100, 60⟩
    let max_requests := config.requests
    let window_seconds := config.window
    let cutoff_time := now - (window_seconds : ℚ)
    let kept := (getCounts st identifier).filter (fun t => cutoff_time < t)
    let st1 := setCounts st identifier kept
    let current_count := kept.length
    if max_requests ≤ current_count then
      let oldest_request :=
        match kept with
        | [] => 0
        | t :: ts => ts.foldl min t
      let retry_after := pyTrunc (oldest_request + (window_seconds : ℚ) - now)
      ({ allowed := false
         reason := some ("Rate limit exceeded: " ++ toString max_requests ++
           " requests per " ++ toString window_seconds ++ "s")
         retry_after := some (max retry_after 1)
         current_count := some current_count
         limit := some max_requests }, st1)
    else
      let st2 := setCounts st1 identifier (kept ++ [now])
      ({ allowed := true
         current_count := some (current_count + 1)
         limit := some max_requests
         remaining := some ((max_requests : ℤ) - current_count - 1)
         reset_at := some (pyTrunc (now + (window_seconds : ℚ))) }, st2)

end SecurityAgent

/-! ## Persistence schema (`app/models/database.py`)

Record types for the SQLAlchemy models.  Auto-increment primary keys are
assigned as (table length + 1) on insert and rows are kept in insertion
order, so the list order is also the `id` order used by the queries
below.  The `created_at`/`updated_at` timestamp columns influence no
claim and are omitted (`order_by(id)` and `order_by(created_at)` both
follow the kept insertion order).  `invoice_number` is kept as a list of
characters because `get_next_invoice_number` manipulates it
character-wise. -/

/-- The `customers` table row. -/
structure Customer where
  id : ℕ
  name : String
  phone : String
  email : String
  address : String
  gst_number : String
  state : String
deriving DecidableEq

/-- The `invoices` table row. -/
structure Invoice where
  id : ℕ
  invoice_number : List Char
  date : String
  due_date : Option String
  time : String
  customer_id : ℕ
  subtotal : ℚ
  total_cgst : ℚ
  total_sgst : ℚ
  total_gst : ℚ
  grand_total : ℚ
  total_items : ℕ
  total_quantity : ℚ
  notes : String
  payment_status : String
  payment_method : Option String
  status : String
deriving DecidableEq

/-- The `invoice_items` table row. -/
structure InvoiceItem where
  id : ℕ
  invoice_id : ℕ
  name : String
  description : String
  hsn_code : String
  quantity : ℚ
  unit_price : ℚ
  subtotal : ℚ
  gst_rate : ℚ
  cgst_rate : ℚ
  sgst_rate : ℚ
  cgst_amount : ℚ
  sgst_amount : ℚ
  total_gst : ℚ
  total_amount : ℚ
deriving DecidableEq

/-- The `payments` table row. -/
structure Payment where
  id : ℕ
  invoice_id : ℕ
  payment_date : String
  payment_time : String
  amount : ℚ
  payment_method : String
  transaction_id : String
  notes : String
deriving DecidableEq

/-- The state of the database file: one list per table. -/
structure DBState where
  customers : List Customer := []
  invoices : List Invoice := []
  invoice_items : List InvoiceItem := []
  payments : List Payment := []
deriving DecidableEq

/-- Replace the first element satisfying `p`: the row that
`query(...).first()` returns and SQLAlchemy then mutates in place. -/
def updateFirst {α : Type} (p : α → Bool) (f : α → α) : List α → List α
  | [] => []
  | x :: xs => if p x then f x :: xs else x :: updateFirst p f xs

/-! ## Payment Ledger Operations (`app/models/payment_operations.py`) -/

namespace PaymentOperations

/-- `PaymentOperations.get_total_paid`: sum of `Payment.amount` over the
rows with this `invoice_id`. -/
def get_total_paid (db : DBState) (invoice_id : ℕ) : ℚ :=
  ((db.payments.filter (fun p => p.invoice_id == invoice_id)).map (fun p => p.amount)).sum

/-- The `payment_status` written by `add_payment` once the running total
is known: `Paid` when total ≥ grand_total, else `Partial` when
total > 0, else `Pending`. -/
def statusFor (total_paid grand_total : ℚ) : String :=
  if grand_total ≤ total_paid then "Paid"
  else if 0 < total_paid then "Partial"
  else "Pending"

/-- `PaymentOperations.add_payment`: builds the Payment row (dated with
`datetime.now()`, passed here as `dateStr`/`timeStr`), recomputes the
paid total, updates the invoice row when one with this id exists, and
commits.  The session factory disables autoflush
(`SessionLocal(autoflush=False)`, `database.py` line 161), so the
mid-transaction `get_total_paid` query sees only previously committed
payments and the new row is counted once, via the explicit `+ amount`. -/
def add_payment (db : DBState) (invoice_id : ℕ) (amount : ℚ)
    (payment_method : String) (transaction_id : String) (notes : String)
    (dateStr timeStr : String) : Payment × DBState :=
  let payment : Payment :=
    ⟨db.payments.length + 1, invoice_id, dateStr, timeStr, amount, payment_method,
      transaction_id, notes⟩
  let total_paid := get_total_paid db invoice_id + amount
  let invoices2 := updateFirst (fun inv => inv.id == invoice_id)
    (fun inv =>
      { inv with
        payment_status := statusFor total_paid inv.grand_total
        payment_method := some payment_method })
    db.invoices
  (payment, { db with invoices := invoices2, payments := db.payments ++ [payment] })

/-- Run a sequence of `add_payment` calls (amount, method) against one
invoice id, as the payment-status claim describes. -/
def runPayments (db : DBState) (invoice_id : ℕ) : List (ℚ × String) → DBState
  | [] => db
  | (a, m) :: rest => runPayments (add_payment db invoice_id a m "" "" "" "").2 invoice_id rest

/-- `query(Invoice).filter(Invoice.id == invoice_id).first()`. -/
def findInvoice (db : DBState) (invoice_id : ℕ) : Option Invoice :=
  db.invoices.find? (fun inv => inv.id == invoice_id)

/-- The `payment_status` of the invoice row with this id, if any. -/
def paymentStatusAt (db : DBState) (invoice_id : ℕ) : Option String :=
  (findInvoice db invoice_id).map (fun inv => inv.payment_status)

/-- The `payment_method` stamped on the invoice row with this id, if any. -/
def paymentMethodAt (db : DBState) (invoice_id : ℕ) : Option (Option String) :=
  (findInvoice db invoice_id).map (fun inv => inv.payment_method)

/-- An invoice row with grand total 1000 (the specification's own
payment-sequence example). -/
def sampleInvoice : Invoice :=
  { id := 1, invoice_number := "INV-2025-1000".data, date := "2025-01-01",
    due_date := none, time := "10:00:00", customer_id := 1, subtotal := 1000,
    total_cgst := 0, total_sgst := 0, total_gst := 0, grand_total := 1000,
    total_items := 1, total_quantity := 1, notes := "", payment_status := "Pending",
    payment_method := none, status := "DRAFT" }

/-- A one-invoice database holding `sampleInvoice` and no payments. -/
def sampleDB : DBState := { invoices := [sampleInvoice] }

end PaymentOperations

/-! ## Decimal strings

`str(int)` and `int(str)` as used by invoice numbering
(`db_operations.py` / `invoice_agent_db.py`), modelled for the
non-negative decimal numerals this program reads and writes. -/

/-- The decimal digit character for `n` (`n < 10`; 9 is the fallback). -/
def digitChar (n : ℕ) : Char :=
  if n = 0 then '0' else if n = 1 then '1' else if n = 2 then '2' else if n = 3 then '3'
  else if n = 4 then '4' else if n = 5 then '5' else if n = 6 then '6' else if n = 7 then '7'
  else if n = 8 then '8' else '9'

/-- Numeric value of a digit character. -/
def charVal (c : Char) : ℕ := c.toNat - 48

/-- Decimal digits of `n`, most significant first; `fuel` bounds the
recursion (any `fuel > n` suffices). -/
def natDigits : ℕ → ℕ → List Char
  | 0, _ => []
  | fuel + 1, n =>
      if n < 10 then [digitChar n]
      else natDigits fuel (n / 10) ++ [digitChar (n % 10)]

/-- Python `str(n)` for a non-negative integer. -/
def natToChars (n : ℕ) : List Char := natDigits (n + 1) n

/-- Python `int(s)` restricted to plain decimal-digit strings: any other
shape raises `ValueError`, embedded as `none`. -/
def parseNat? (l : List Char) : Option ℕ :=
  if l ≠ [] ∧ l.all Char.isDigit then
    some (l.foldl (fun acc c => 10 * acc + charVal c) 0)
  else none

/-- Python `str.split(sep)` for a one-character separator: always returns
at least one (possibly empty) piece. -/
def splitOnChar (sep : Char) : List Char → List (List Char)
  | [] => [[]]
  | c :: rest =>
      if c = sep then [] :: splitOnChar sep rest
      else
        match splitOnChar sep rest with
        | [] => [[c]]
        | s :: ss => (c :: s) :: ss

/-- `int(invoice_number.split('-')[-1])` as an `Option`: parse the
trailing dash-separated segment. -/
def parseTrailing (s : List Char) : Option ℕ :=
  parseNat? ((splitOnChar '-' s).getLastD [])

/-! ## Customer/item request payloads

The dict shapes accepted by the persisted orchestrator.  Keys the code
reads unconditionally (`item['price']`, `customer['name']`, ...) are
mandatory fields; keys read through `.get(...)` are `Option`s. -/

/-- The `customer` dict of a create-invoice request. -/
structure RequestCustomer where
  name : String
  phone : String
  email : Option String := none
  address : Option String := none
  gst_number : Option String := none
  state : Option String := none
deriving DecidableEq

/-- One entry of the `items` list of a create-invoice request. -/
structure RequestItem where
  name : String
  description : Option String := none
  hsn_code : Option String := none
  price : ℚ
  quantity : ℚ
  gst_rate : ℚ
deriving DecidableEq

/-! ## The Input Validator (`app/agents/validator.py`)

The regular expressions are embedded as executable character-class
matchers equivalent to the anchored patterns in the source. -/

namespace InvoiceValidator

/-- `VALID_GST_RATES = [0, 5, 12, 18, 28]`. -/
def VALID_GST_RATES : List ℚ := [0, 5, 12, 18, 28]

/-- `PHONE_PATTERN = ^[6-9]\d{9}$`. -/
def matchPhonePattern (l : List Char) : Bool :=
  match l with
  | c :: rest => ('6' ≤ c && c ≤ '9') && rest.length == 9 && rest.all Char.isDigit
  | [] => false

/-- The character class `[a-zA-Z0-9._%+-]` of `EMAIL_PATTERN`. -/
def isEmailLocalChar (c : Char) : Bool :=
  c.isAlpha || c.isDigit || c == '.' || c == '_' || c == '%' || c == '+' || c == '-'

/-- The character class `[a-zA-Z0-9.-]` of `EMAIL_PATTERN`. -/
def isEmailDomainChar (c : Char) : Bool :=
  c.isAlpha || c.isDigit || c == '.' || c == '-'

/-- `EMAIL_PATTERN = ^[a-zA-Z0-9._%+-]+@[a-zA-Z0-9.-]+\.[a-zA-Z]{2,}$`:
exactly one `@` (neither class admits it); a non-empty local part; a
domain that splits at its last dot into a non-empty run of domain
characters and a trailing run of at least two letters (the TLD run can
hold no dot, so the regex matches exactly when this decomposition at the
last dot succeeds). -/
def matchEmailPattern (l : List Char) : Bool :=
  match splitOnChar '@' l with
  | [localPart, domain] =>
      (!localPart.isEmpty) && localPart.all isEmailLocalChar &&
      (let revDom := domain.reverse
       let revTld := revDom.takeWhile (fun c => c != '.')
       match revDom.drop revTld.length with
       | '.' :: revRest =>
           decide (2 ≤ revTld.length) && revTld.all Char.isAlpha &&
           (!revRest.isEmpty) && revRest.all isEmailDomainChar
       | _ => false)
  | _ => false

/-- The character class `[A-Z]`. -/
def isUpperAZ (c : Char) : Bool := 'A' ≤ c && c ≤ 'Z'

/-- `GST_PATTERN = ^[0-9]{2}[A-Z]{5}[0-9]{4}[A-Z][1-9A-Z]Z[0-9A-Z]$`. -/
def matchGSTPattern (l : List Char) : Bool :=
  match l with
  | [a, b, c1, c2, c3, c4, c5, d1, d2, d3, d4, e, f, z, g] =>
      a.isDigit && b.isDigit && isUpperAZ c1 && isUpperAZ c2 && isUpperAZ c3 &&
      isUpperAZ c4 && isUpperAZ c5 && d1.isDigit && d2.isDigit && d3.isDigit &&
      d4.isDigit && isUpperAZ e && (('1' ≤ f && f ≤ '9') || isUpperAZ f) &&
      z == 'Z' && (g.isDigit || isUpperAZ g)
  | _ => false

/-- `InvoiceValidator.validate_customer_name`. -/
def validate_customer_name (name : String) : Bool × String :=
  if name.isEmpty || (pyStrip name).isEmpty then (false, "Customer name cannot be empty")
  else if (pyStrip name).length < 2 then (false, "Customer name must be at least 2 characters")
  else if 100 < name.length then (false, "Customer name too long (max 100 characters)")
  else (true, "Valid")

/-- `InvoiceValidator.validate_phone`: strip spaces and dashes, then match
the 10-digit 6-9-leading pattern. -/
def validate_phone (phone : String) : Bool × String :=
  let phone_clean := phone.data.filter (fun c => c != ' ' && c != '-')
  if !matchPhonePattern phone_clean then
    (false, "Invalid phone number (must be 10 digits starting with 6-9)")
  else (true, "Valid")

/-- `InvoiceValidator.validate_email`. -/
def validate_email (email : String) : Bool × String :=
  if email.isEmpty || (pyStrip email).isEmpty then (false, "Email cannot be empty")
  else if !matchEmailPattern email.data then (false, "Invalid email format")
  else (true, "Valid")

/-- `InvoiceValidator.validate_gst_number` (optional field: empty is
valid). -/
def validate_gst_number (gst_number : String) : Bool × String :=
  if gst_number.isEmpty then (true, "Valid")
  else if !matchGSTPattern gst_number.data then
    (false, "Invalid GST number format (must be 15 characters)")
  else (true, "Valid")

/-- `InvoiceValidator.validate_item_name`. -/
def validate_item_name (name : String) : Bool × String :=
  if name.isEmpty || (pyStrip name).isEmpty then (false, "Item name cannot be empty")
  else if (pyStrip name).length < 2 then (false, "Item name must be at least 2 characters")
  else if 200 < name.length then (false, "Item name too long (max 200 characters)")
  else (true, "Valid")

/-- `InvoiceValidator.validate_price` (the input is already numeric, so
the `float()` conversion always succeeds). -/
def validate_price (price : ℚ) : Bool × String :=
  if price < 0 then (false, "Price cannot be negative")
  else if 10000000 < price then (false, "Price too high (max ₹1,00,00,000)")
  else (true, "Valid")

/-- `InvoiceValidator.validate_quantity`: `int(quantity)` truncates
toward zero before the bounds checks. -/
def validate_quantity (quantity : ℚ) : Bool × String :=
  let qty_int := pyTrunc quantity
  if qty_int ≤ 0 then (false, "Quantity must be positive")
  else if 100000 < qty_int then (false, "Quantity too high (max 1,00,000)")
  else (true, "Valid")

/-- `InvoiceValidator.validate_gst_rate`. -/
def validate_gst_rate (rate : ℚ) : Bool × String :=
  if rate ∈ VALID_GST_RATES then (true, "Valid")
  else (false, "GST rate must be one of [0, 5, 12, 18, 28]")

/-- `InvoiceValidator.validate_invoice_item`: name → price → quantity →
rate, short-circuiting, each failure message prefixed with its field. -/
def validate_invoice_item (item : RequestItem) : Bool × String :=
  let r1 := validate_item_name item.name
  if !r1.1 then (false, "Item name error: " ++ r1.2)
  else
    let r2 := validate_price item.price
    if !r2.1 then (false, "Price error: " ++ r2.2)
    else
      let r3 := validate_quantity item.quantity
      if !r3.1 then (false, "Quantity error: " ++ r3.2)
      else
        let r4 := validate_gst_rate item.gst_rate
        if !r4.1 then (false, "GST rate error: " ++ r4.2)
        else (true, "Valid")

/-- `InvoiceValidator.validate_customer_details`: name → phone →
(email if present and truthy) → (GST number if present and truthy),
short-circuiting. -/
def validate_customer_details (customer : RequestCustomer) : Bool × String :=
  let r1 := validate_customer_name customer.name
  if !r1.1 then (false, r1.2)
  else
    let r2 := validate_phone customer.phone
    if !r2.1 then (false, r2.2)
    else
      let r3 :=
        if strTruthy customer.email then validate_email (customer.email.getD "")
        else (true, "Valid")
      if !r3.1 then (false, r3.2)
      else
        let r4 :=
          if strTruthy customer.gst_number then validate_gst_number (customer.gst_number.getD "")
          else (true, "Valid")
        if !r4.1 then (false, r4.2)
        else (true, "Valid")

end InvoiceValidator

/-! ### Python call and import failure (claims C2 and C6)

invoice_agent_db.py line 29 calls `GSTCalculator(base_price=0, gst_rate=0)`
while `GSTCalculator.__init__` (gst_calculator.py lines 17-22) accepts no
keyword arguments, and audit_agent.py line 17 runs
`from app.models.database import AuditLog, SessionLocal` while database.py
defines no `AuditLog`. Python keyword-argument binding and `from ... import`
resolution are modelled just far enough to express these module-level
failures. -/

/-- A Python exception escaping to the caller. -/
inductive PyError where
  | typeError (msg : String)
  | importError (msg : String)
deriving DecidableEq

namespace GSTCalculator

/-- Calling `GSTCalculator(...)` with a list of keyword-argument names
(gst_calculator.py lines 17-22): `__init__(self)` declares no keyword
parameters, so any keyword argument raises `TypeError`. -/
def initCall (kwargs : List String) : Except PyError Unit :=
  match kwargs with
  | [] => .ok ()
  | k :: _ => .error (.typeError
      ("__init__() got an unexpected keyword argument \x27" ++ k ++ "\x27"))

end GSTCalculator

namespace InvoiceAgentDB

/-- `InvoiceAgentDB.__init__` (invoice_agent_db.py lines 26-31): builds the
validator, then evaluates `GSTCalculator(base_price=0, gst_rate=0)`; any
exception raised by that call propagates to whoever constructs the agent. -/
def initAgent : Except PyError Unit :=
  GSTCalculator.initCall ["base_price", "gst_rate"]

end InvoiceAgentDB

/-- The module-level names `app/models/database.py` actually binds
(database.py lines 14-170): no `AuditLog` and no `RecurringInvoice`. -/
def databaseModuleNames : List String :=
  ["Base", "Customer", "Invoice", "InvoiceItem", "Payment", "DATABASE_URL",
   "User", "engine", "SessionLocal", "init_database", "get_db"]

/-- `from app.models.database import n1, n2, ...`: succeeds iff every
requested name is bound by the module, else raises `ImportError` for the
first missing name. -/
def importFromDatabase : List String → Except PyError Unit
  | [] => .ok ()
  | n :: rest =>
    if databaseModuleNames.contains n then importFromDatabase rest
    else .error (.importError
      ("cannot import name \x27" ++ n ++ "\x27 from \x27app.models.database\x27"))

/-- audit_agent.py line 17, executed when the Audit Agent module is first
imported; `AuditAgent.log_action` is reachable only if this import
succeeds. -/
def auditAgentModuleImport : Except PyError Unit :=
  importFromDatabase ["AuditLog", "SessionLocal"]

/-! ## The persisted Invoice Orchestrator (`app/agents/invoice_agent_db.py`)
and Persistence Operations (`app/models/db_operations.py`) -/

/-- The per-item dict assembled in step 3 of
`InvoiceAgentDB.create_invoice`. -/
structure CalculatedItem where
  name : String
  description : String
  hsn_code : String
  quantity : ℚ
  unit_price : ℚ
  subtotal : ℚ
  gst_rate : ℚ
  cgst_rate : ℚ
  sgst_rate : ℚ
  cgst_amount : ℚ
  sgst_amount : ℚ
  total_gst : ℚ
  total_amount : ℚ
deriving DecidableEq

/-- The `totals` dict assembled in step 4. -/
structure InvoiceTotals where
  subtotal : ℚ
  total_cgst : ℚ
  total_sgst : ℚ
  total_gst : ℚ
  grand_total : ℚ
  total_items : ℕ
  total_quantity : ℚ
deriving DecidableEq

/-- The `invoice_data` dict passed to
`DatabaseOperations.create_invoice` (step 6). -/
structure InvoiceData where
  invoice_number : List Char
  date : String
  time : String
  status : String
  payment_status : String
  payment_method : Option String
  customer : RequestCustomer
  items : List CalculatedItem
  totals : InvoiceTotals
  notes : String

namespace DatabaseOperations

/-- `DatabaseOperations.create_or_get_customer`: look up by phone; update
the found row's other fields in place, or insert a new row (defaults:
empty strings, state "Telangana"). -/
def create_or_get_customer (db : DBState) (c : RequestCustomer) : Customer × DBState :=
  match db.customers.find? (fun row => row.phone == c.phone) with
  | some existing =>
      let updated : Customer :=
        { existing with
          name := c.name
          email := c.email.getD existing.email
          address := c.address.getD existing.address
          gst_number := c.gst_number.getD existing.gst_number
          state := c.state.getD existing.state }
      (updated,
        { db with customers :=
            updateFirst (fun row => row.phone == c.phone) (fun _ => updated) db.customers })
  | none =>
      let row : Customer :=
        ⟨db.customers.length + 1, c.name, c.phone, c.email.getD "", c.address.getD "",
          c.gst_number.getD "", c.state.getD "Telangana"⟩
      (row, { db with customers := db.customers ++ [row] })

/-- `DatabaseOperations.create_invoice`: resolve the customer, insert the
Invoice row with the caller-supplied totals verbatim, then one
InvoiceItem row per supplied item, committed as one unit. -/
def create_invoice (db : DBState) (data : InvoiceData) : Invoice × DBState :=
  let resolved := create_or_get_customer db data.customer
  let customer := resolved.1
  let db1 := resolved.2
  let invoice : Invoice :=
    { id := db1.invoices.length + 1
      invoice_number := data.invoice_number
      date := data.date
      due_date := none
      time := data.time
      customer_id := customer.id
      subtotal := data.totals.subtotal
      total_cgst := data.totals.total_cgst
      total_sgst := data.totals.total_sgst
      total_gst := data.totals.total_gst
      grand_total := data.totals.grand_total
      total_items := data.totals.total_items
      total_quantity := data.totals.total_quantity
      notes := data.notes
      payment_status := data.payment_status
      payment_method := data.payment_method
      status := data.status }
  let item_rows := data.items.mapIdx (fun i item =>
    ({ id := db1.invoice_items.length + i + 1
       invoice_id := invoice.id
       name := item.name
       description := item.description
       hsn_code := item.hsn_code
       quantity := item.quantity
       unit_price := item.unit_price
       subtotal := item.subtotal
       gst_rate := item.gst_rate
       cgst_rate := item.cgst_rate
       sgst_rate := item.sgst_rate
       cgst_amount := item.cgst_amount
       sgst_amount := item.sgst_amount
       total_gst := item.total_gst
       total_amount := item.total_amount } : InvoiceItem))
  (invoice,
    { db1 with
      invoices := db1.invoices ++ [invoice]
      invoice_items := db1.invoice_items ++ item_rows })

/-- `DatabaseOperations.get_invoice_by_number`. -/
def get_invoice_by_number (db : DBState) (invoice_number : List Char) : Option Invoice :=
  db.invoices.find? (fun inv => inv.invoice_number == invoice_number)

/-- `DatabaseOperations.get_next_invoice_number`: read the most recently
inserted invoice (greatest id = last of the list), parse the trailing
numeric segment of its number and add one; 1000 when no invoice exists
or parsing raises. -/
def get_next_invoice_number (db : DBState) : ℕ :=
  match db.invoices.getLast? with
  | none => 1000
  | some last_invoice =>
      match parseTrailing last_invoice.invoice_number with
      | some last_number => last_number + 1
      | none => 1000

end DatabaseOperations

namespace InvoiceAgentDB

/-- The `datetime.now()`-derived values `create_invoice` embeds: the date
and time strings and the calendar year used in the invoice number. -/
structure Env where
  date : String
  time : String
  year : ℕ

/-- The characters of `f"INV-{year}-{seq}"`. -/
def invoiceNumberFor (env : Env) (seq : ℕ) : List Char :=
  "INV-".data ++ natToChars env.year ++ "-".data ++ natToChars seq

/-- `InvoiceAgentDB._generate_invoice_number`:
`f"INV-{year}-{next_number}"` with the next number read from the
database. -/
def _generate_invoice_number (env : Env) (db : DBState) : List Char :=
  invoiceNumberFor env (DatabaseOperations.get_next_invoice_number db)

/-- Step 3 of `create_invoice` for one item: the loop body first evaluates
`GSTCalculator(base_price=item[...], gst_rate=item[...], quantity=item[...])`.
invoice_agent_db.py line 18 imports `GSTCalculator` from
`app.agents.gst_calculator`, the stateless class whose `__init__(self)`
(gst_calculator.py lines 17-22) takes no keyword arguments, so the
construction raises `TypeError` before `.calculate()` is reached; had the
construction returned, the next statement `calculator.calculate()` would
itself raise `TypeError`, since that class's `calculate(self, items)`
requires the positional `items` argument. -/
def calculatedItem (item : RequestItem) : Except PyError CalculatedItem :=
  match GSTCalculator.initCall ["base_price", "gst_rate", "quantity"] with
  | .error e => .error e
  | .ok _ => .error (.typeError
      "calculate() missing 1 required positional argument: \x27items\x27")

/-- Step 2's `for i, item in enumerate(items)` loop: the first failing
item's error message, if any. -/
def validateItemsLoop (idx : ℕ) : List RequestItem → Option String
  | [] => none
  | item :: rest =>
      let r := InvoiceValidator.validate_invoice_item item
      if !r.1 then some ("Item " ++ toString (idx + 1) ++ " validation failed: " ++ r.2)
      else validateItemsLoop (idx + 1) rest

/-- `InvoiceAgentDB.create_invoice` (invoice_agent_db.py lines 36-142):
validate the customer, validate the items, then calculate per item.  The
outer `Except PyError` is a raised Python exception escaping to the caller;
`.ok` wraps the returned dict, with its inner `Except.error` embedding the
`{'success': False, 'error': ...}` returns.  Step 3's calculator
construction (see `calculatedItem`) raises on the first item, and no
try/except covers steps 3-6 (only the step-7 database save is guarded), so
once validation passes the `TypeError` propagates and the store is left
untouched; steps 4-7 are unreachable. -/
def create_invoice (env : Env) (customer : RequestCustomer)
    (items : List RequestItem) (notes : String) (db : DBState) :
    Except PyError (Except String Invoice) × DBState :=
  let r1 := InvoiceValidator.validate_customer_details customer
  if !r1.1 then (.ok (.error ("Customer validation failed: " ++ r1.2)), db)
  else if items.isEmpty then (.ok (.error "Invoice must have at least one item"), db)
  else
    match validateItemsLoop 0 items with
    | some msg => (.ok (.error msg), db)
    | none =>
        match items with
        -- unreachable: step 2 already returned this error dict for an empty list
        | [] => (.ok (.error "Invoice must have at least one item"), db)
        | item :: _ =>
            match calculatedItem item with
            | .error e => (.error e, db)
            | .ok _ => (.error (.typeError
                "calculate() missing 1 required positional argument: \x27items\x27"), db)

/-- `InvoiceAgentDB.get_invoice` (the model-to-dict conversion keeps the
row's fields, so the row itself is returned). -/
def get_invoice (db : DBState) (invoice_number : List Char) : Option Invoice :=
  DatabaseOperations.get_invoice_by_number db invoice_number

/-- One create-invoice request. -/
structure Request where
  customer : RequestCustomer
  items : List RequestItem
  notes : String

/-- A concrete environment for witnesses: January 1st, 2025. -/
def sampleEnv : Env := ⟨"2025-01-01", "10:00:00", 2025⟩

/-- A concrete valid request for witnesses. -/
def sampleRequest : Request :=
  { customer := { name := "Rajesh Kumar", phone := "9876543210" }
    items := [{ name := "Laptop", price := 50000, quantity := 1, gst_rate := 18 }]
    notes := "" }

end InvoiceAgentDB


/-! ### The Authentication Agent (claim C7)

auth_agent.py. The external primitives are modelled by their documented
contracts: the SHA-256 pre-hash as a deterministic collision-free digest
(idealised as the identity on strings), `bcrypt.hashpw`/`bcrypt.checkpw` as a
salted pair whose check succeeds exactly on the original input, and
`jose.jwt.encode`/`jose.jwt.decode` as a signed payload recoverable with the
matching key while the `exp` claim has not passed. The fresh salt from
`bcrypt.gensalt()` and the clock `datetime.utcnow()` are explicit
parameters. -/

namespace AuthAgent

/-- `SECRET_KEY` (auth_agent.py line 22). -/
def SECRET_KEY : String := "gst-invoice-agent-secret-key-bunny-rangu-2026"

/-- `ACCESS_TOKEN_EXPIRE_MINUTES = 60 * 24` (auth_agent.py line 24). -/
def ACCESS_TOKEN_EXPIRE_MINUTES : ℚ := 60 * 24

/-- `AuthAgent._hash_password_sha256` (auth_agent.py lines 34-46): the
external SHA-256 hex digest, modelled by its contract as a deterministic
collision-free function, idealised as the identity on strings. -/
def sha256hex (password : String) : String := password

/-- A bcrypt hash value: the salt together with the digest of the hashed
input. Models `bcrypt.hashpw` / `bcrypt.checkpw` by their contract:
`checkpw(x, hashpw(y, salt))` succeeds exactly when `x = y`. -/
structure BHash where
  salt : Nat
  digest : String
deriving DecidableEq

/-- `bcrypt.hashpw(input, salt)`. -/
def bcryptHashpw (input : String) (salt : Nat) : BHash := ⟨salt, input⟩

/-- `bcrypt.checkpw(input, stored)`. -/
def bcryptCheckpw (input : String) (stored : BHash) : Bool :=
  stored.digest == input

/-- `AuthAgent.hash_password` (auth_agent.py lines 48-62): bcrypt over the
SHA-256 pre-hash; the fresh salt from `bcrypt.gensalt()` is a parameter. -/
def hash_password (password : String) (salt : Nat) : BHash :=
  bcryptHashpw (sha256hex password) salt

/-- `AuthAgent.verify_password` (auth_agent.py lines 64-79). -/
def verify_password (plain : String) (hashed : BHash) : Bool :=
  bcryptCheckpw (sha256hex plain) hashed

/-- The claim set carried by a token: `login_user` encodes
`{sub, role, email}` and `create_access_token` adds `exp` (seconds). -/
structure JWTPayload where
  sub : Option String
  role : Option String
  email : Option String
  exp : ℚ
deriving DecidableEq

/-- A JWT as produced by `jose.jwt.encode`: the signed payload together with
the signing key. -/
structure JWTToken where
  payload : JWTPayload
  key : String
deriving DecidableEq

/-- `jose.jwt.encode(payload, key, HS256)`. -/
def jwtEncode (payload : JWTPayload) (key : String) : JWTToken :=
  ⟨payload, key⟩

/-- `jose.jwt.decode(token, key, [HS256])` at clock `now` (seconds): returns
the payload when the key matches and the `exp` claim has not passed, and
raises `JWTError` (here: `none`) otherwise. -/
def jwtDecode (tok : JWTToken) (key : String) (now : ℚ) : Option JWTPayload :=
  if tok.key = key ∧ now ≤ tok.payload.exp then some tok.payload else none

/-- `AuthAgent.create_access_token` (auth_agent.py lines 81-102) with the
default expiry: `exp = utcnow() + ACCESS_TOKEN_EXPIRE_MINUTES` minutes. -/
def create_access_token (data : JWTPayload) (now : ℚ) : JWTToken :=
  jwtEncode { data with exp := now + ACCESS_TOKEN_EXPIRE_MINUTES * 60 } SECRET_KEY

/-- The dictionary `verify_token` returns on success. -/
structure TokenData where
  username : String
  role : String
deriving DecidableEq

/-- `AuthAgent.verify_token` (auth_agent.py lines 104-124): decode with
`SECRET_KEY`; `None` on `JWTError` or a missing `sub` claim; otherwise the
username with the role defaulting to "user". -/
def verify_token (token : JWTToken) (now : ℚ) : Option TokenData :=
  match jwtDecode token SECRET_KEY now with
  | none => none
  | some payload =>
    match payload.sub with
    | none => none
    | some username => some ⟨username, payload.role.getD "user"⟩

/-- A row of the `users` table (database.py lines 136-153); the `is_active`
column defaults to "true". -/
structure UserRow where
  username : String
  email : String
  hashed_password : BHash
  full_name : String
  role : String
  is_active : String
deriving DecidableEq

/-- The users table seen through `SessionLocal()`. -/
structure AuthDB where
  users : List UserRow := []
deriving DecidableEq

/-- The `User(...)` row `register_user` inserts. -/
def registeredRow (username email password full_name role : String)
    (salt : Nat) : UserRow :=
  { username := username, email := email,
    hashed_password := hash_password password salt,
    full_name := full_name, role := role, is_active := "true" }

/-- `AuthAgent.register_user` (auth_agent.py lines 126-206): reject an
existing username, then an existing email; otherwise hash the password and
insert the row. Returns the result and the updated store. -/
def register_user (db : AuthDB) (username email password full_name role : String)
    (salt : Nat) : Except String UserRow × AuthDB :=
  match db.users.find? (fun u => u.username == username) with
  | some _ =>
      (.error ("Username \x27" ++ username ++ "\x27 already exists"), db)
  | none =>
    match db.users.find? (fun u => u.email == email) with
    | some _ =>
        (.error ("Email \x27" ++ email ++ "\x27 already registered"), db)
    | none =>
      (.ok (registeredRow username email password full_name role salt),
       { users := db.users ++
           [registeredRow username email password full_name role salt] })

/-- `AuthAgent.login_user` (auth_agent.py lines 208-276): an unknown username
or a failed password check give the same generic error; a deactivated account
is rejected; otherwise a token over `{sub, role, email}` is issued. -/
def login_user (db : AuthDB) (username password : String) (now : ℚ) :
    Except String JWTToken :=
  match db.users.find? (fun u => u.username == username) with
  | none => .error "Invalid username or password"
  | some user =>
    if verify_password password user.hashed_password = false then
      .error "Invalid username or password"
    else if user.is_active ≠ "true" then
      .error "Account is deactivated"
    else
      .ok (create_access_token
        { sub := some user.username, role := some user.role,
          email := some user.email, exp := 0 } now)

end AuthAgent

/-! ## Theorems: the Tax Calculation Engine (claims C1 and C4) -/

namespace GSTCalculator

theorem itemErrors_toItem (idx : ℕ) (w : WFItem) (hp : 0 < w.price)
    (hq : 0 < w.quantity) (hr : w.gst_rate ∈ VALID_RATES) :
    itemErrors idx w.toItem = [] := by
  simp [itemErrors, WFItem.toItem, hr, not_le.mpr hp, not_le.mpr hq]

theorem validateLoop_map_toItem (ws : List WFItem) (n : ℕ)
    (h : ∀ w ∈ ws, 0 < w.price ∧ 0 < w.quantity ∧ w.gst_rate ∈ VALID_RATES) :
    validateLoop n (ws.map WFItem.toItem) = [] := by
  induction ws generalizing n with
  | nil => rfl
  | cons a l ih =>
      have ha := h a (by simp)
      rw [List.map_cons, validateLoop, itemErrors_toItem n a ha.1 ha.2.1 ha.2.2,
        ih (n + 1) (fun w hw => h w (by simp [hw]))]
      rfl

theorem validate_map_toItem (ws : List WFItem) (hne : ws ≠ [])
    (h : ∀ w ∈ ws, 0 < w.price ∧ 0 < w.quantity ∧ w.gst_rate ∈ VALID_RATES) :
    validate (ws.map WFItem.toItem) = ⟨true, []⟩ := by
  match ws, hne with
  | w :: l, _ =>
      have hloop := validateLoop_map_toItem (w :: l) 0 h
      simp only [List.map_cons] at hloop ⊢
      simp [validate, hloop]

theorem calcLine_toItem (w : WFItem) :
    calcLine w.toItem =
      { name := w.name, price := w.price, quantity := w.quantity, gst_rate := w.gst_rate,
        subtotal := pyRound2 (w.price * w.quantity),
        cgst := pyRound2 (w.price * w.quantity * (w.gst_rate / 100) / 2),
        sgst := pyRound2 (w.price * w.quantity * (w.gst_rate / 100) / 2),
        total_gst := pyRound2 (w.price * w.quantity * (w.gst_rate / 100)),
        total := pyRound2 (w.price * w.quantity + w.price * w.quantity * (w.gst_rate / 100)) } := by
  simp [calcLine, WFItem.toItem, rawSubtotal, rawGst]

theorem calculate_ok_of_valid (ws : List WFItem) (hne : ws ≠ [])
    (h : ∀ w ∈ ws, 0 < w.price ∧ 0 < w.quantity ∧ w.gst_rate ∈ VALID_RATES) :
    calculate (ws.map WFItem.toItem) = Except.ok
      { items := ws.map (fun w =>
          { name := w.name, price := w.price, quantity := w.quantity, gst_rate := w.gst_rate,
            subtotal := pyRound2 (w.price * w.quantity),
            cgst := pyRound2 (w.price * w.quantity * (w.gst_rate / 100) / 2),
            sgst := pyRound2 (w.price * w.quantity * (w.gst_rate / 100) / 2),
            total_gst := pyRound2 (w.price * w.quantity * (w.gst_rate / 100)),
            total := pyRound2 (w.price * w.quantity + w.price * w.quantity * (w.gst_rate / 100)) }),
        subtotal := pyRound2 ((ws.map (fun w => w.price * w.quantity)).sum),
        total_gst := pyRound2 ((ws.map (fun w => w.price * w.quantity * (w.gst_rate / 100))).sum),
        grand_total := pyRound2 ((ws.map (fun w => w.price * w.quantity)).sum +
          (ws.map (fun w => w.price * w.quantity * (w.gst_rate / 100))).sum),
        total_items := ws.length,
        total_quantity := (ws.map (fun w => w.quantity)).sum } := by
  have hv := validate_map_toItem ws hne h
  have hsub : (ws.map WFItem.toItem).map rawSubtotal =
      ws.map (fun w => w.price * w.quantity) := by
    rw [List.map_map]; rfl
  have hgst : (ws.map WFItem.toItem).map rawGst =
      ws.map (fun w => w.price * w.quantity * (w.gst_rate / 100)) := by
    rw [List.map_map]; rfl
  have hqty : (ws.map WFItem.toItem).map (fun item => item.quantity.getD 0) =
      ws.map (fun w => w.quantity) := by
    rw [List.map_map]; rfl
  have hlines : (ws.map WFItem.toItem).map calcLine = ws.map (fun w =>
      { name := w.name, price := w.price, quantity := w.quantity, gst_rate := w.gst_rate,
        subtotal := pyRound2 (w.price * w.quantity),
        cgst := pyRound2 (w.price * w.quantity * (w.gst_rate / 100) / 2),
        sgst := pyRound2 (w.price * w.quantity * (w.gst_rate / 100) / 2),
        total_gst := pyRound2 (w.price * w.quantity * (w.gst_rate / 100)),
        total := pyRound2 (w.price * w.quantity + w.price * w.quantity * (w.gst_rate / 100)) }) := by
    rw [List.map_map]
    exact List.map_congr_left (fun w _ => calcLine_toItem w)
  simp [calculate, hv, hsub, hgst, hqty, hlines]

/-- C1 (corrected): for every non-empty list of items with all four fields
present, positive price and quantity and a GST rate in VALID_RATES,
`calculate` succeeds and returns exactly the per-item breakdown and the
aggregate totals computed by the source code (every monetary value rounded
to 2 decimal places); for a single-item list, `total_gst` is
`round(p*q*r/100, 2)` and `grand_total` is `round(p*q*(1+r/100), 2)`, and
`cgst = sgst = round(p*q*(r/100)/2, 2)` — the rounded half of the item
GST, which is the amended form of the claim (the claim as stated asserts
`cgst = total_gst/2`, refuted by `gst_calculate_claim_counterexample`). -/
theorem gst_calculate_correct (ws : List WFItem) (hne : ws ≠ [])
    (h : ∀ w ∈ ws, 0 < w.price ∧ 0 < w.quantity ∧ w.gst_rate ∈ VALID_RATES) :
    calculate (ws.map WFItem.toItem) = Except.ok
      { items := ws.map (fun w =>
          { name := w.name, price := w.price, quantity := w.quantity, gst_rate := w.gst_rate,
            subtotal := pyRound2 (w.price * w.quantity),
            cgst := pyRound2 (w.price * w.quantity * (w.gst_rate / 100) / 2),
            sgst := pyRound2 (w.price * w.quantity * (w.gst_rate / 100) / 2),
            total_gst := pyRound2 (w.price * w.quantity * (w.gst_rate / 100)),
            total := pyRound2 (w.price * w.quantity + w.price * w.quantity * (w.gst_rate / 100)) }),
        subtotal := pyRound2 ((ws.map (fun w => w.price * w.quantity)).sum),
        total_gst := pyRound2 ((ws.map (fun w => w.price * w.quantity * (w.gst_rate / 100))).sum),
        grand_total := pyRound2 ((ws.map (fun w => w.price * w.quantity)).sum +
          (ws.map (fun w => w.price * w.quantity * (w.gst_rate / 100))).sum),
        total_items := ws.length,
        total_quantity := (ws.map (fun w => w.quantity)).sum } ∧
    (∀ nm p q r, 0 < p → 0 < q → r ∈ VALID_RATES →
      totalGstOf (calculate [WFItem.toItem ⟨nm, p, q, r⟩]) = pyRound2 (p * q * r / 100) ∧
      grandTotalOf (calculate [WFItem.toItem ⟨nm, p, q, r⟩]) = pyRound2 (p * q * (1 + r / 100)) ∧
      firstCgst (calculate [WFItem.toItem ⟨nm, p, q, r⟩]) =
        firstSgst (calculate [WFItem.toItem ⟨nm, p, q, r⟩]) ∧
      firstCgst (calculate [WFItem.toItem ⟨nm, p, q, r⟩]) = pyRound2 (p * q * (r / 100) / 2)) := by
  refine ⟨calculate_ok_of_valid ws hne h, ?_⟩
  intro nm p q r hp hq hr
  have hone := calculate_ok_of_valid [⟨nm, p, q, r⟩] (by simp)
    (by intro w hw; simp at hw; subst hw; exact ⟨hp, hq, hr⟩)
  rw [List.map_singleton] at hone
  rw [hone]
  refine ⟨?_, ?_, rfl, rfl⟩
  · show pyRound2 (List.sum [p * q * (r / 100)]) = pyRound2 (p * q * r / 100)
    congr 1
    rw [List.sum_singleton]
    ring
  · show pyRound2 (List.sum [p * q] + List.sum [p * q * (r / 100)]) =
      pyRound2 (p * q * (1 + r / 100))
    congr 1
    rw [List.sum_singleton, List.sum_singleton]
    ring

/-- Concrete instance of `gst_calculate_correct`: a single ₹10,000 item at
18% GST yields subtotal 10000, GST 1800, grand total 11800. -/
theorem gst_calculate_correct_witness :
    calculate ([⟨"Laptop", 10000, 1, 18⟩].map WFItem.toItem) = Except.ok
      ⟨[⟨"Laptop", 10000, 1, 18, 10000, 900, 900, 1800, 11800⟩],
        10000, 1800, 11800, 1, 1⟩ ∧
    totalGstOf (calculate [WFItem.toItem ⟨"Laptop", 10000, 1, 18⟩]) = 1800 := by
  have h := gst_calculate_correct [⟨"Laptop", 10000, 1, 18⟩] (by simp)
    (by with_unfolding_all decide)
  constructor
  · rw [h.1]; with_unfolding_all rfl
  · have h2 := (h.2 "Laptop" 10000 1 18 (by norm_num) (by norm_num)
      (by with_unfolding_all decide)).1
    rw [h2]; with_unfolding_all rfl

/-- C1 as stated is false: for the single item price 1, quantity 1, GST
rate 5 (all hypotheses of the claim satisfied), the item GST is 0.05, so
`total_gst = 0.05` but `cgst = round(0.025, 2)` is a 2-decimal quantity
and cannot equal `total_gst / 2 = 0.025`. -/
theorem gst_calculate_claim_counterexample :
    totalGstOf (calculate [WFItem.toItem ⟨"Pen", 1, 1, 5⟩]) = 1/20 ∧
    firstCgst (calculate [WFItem.toItem ⟨"Pen", 1, 1, 5⟩]) =
      firstSgst (calculate [WFItem.toItem ⟨"Pen", 1, 1, 5⟩]) ∧
    firstCgst (calculate [WFItem.toItem ⟨"Pen", 1, 1, 5⟩]) ≠
      totalGstOf (calculate [WFItem.toItem ⟨"Pen", 1, 1, 5⟩]) / 2 := by
  with_unfolding_all decide

theorem validateLoop_ne_nil (items : List Item) (item : Item) (r : ℚ) (n : ℕ)
    (hmem : item ∈ items) (hgst : item.gst_rate = some r) (hnr : r ∉ VALID_RATES) :
    validateLoop n items ≠ [] := by
  induction items generalizing n with
  | nil => cases hmem
  | cons a l ih =>
      rcases List.mem_cons.mp hmem with rfl | hmem
      · intro hcon
        rw [validateLoop] at hcon
        have h2 := (List.append_eq_nil.mp hcon).1
        simp [itemErrors, hgst, hnr, List.append_eq_nil] at h2
      · intro hcon
        rw [validateLoop] at hcon
        exact ih (n + 1) hmem (List.append_eq_nil.mp hcon).2

/-- C4: `calculate` raises exactly when `validate` reports the list
invalid; the raised `ValueError` message is the concatenation of every
violation `validate` reports; any item whose `gst_rate` is outside
VALID_RATES makes the calculation fail regardless of its other fields;
and `validate` on the empty list is invalid with a non-empty error list. -/
theorem gst_calculate_raises_iff_invalid :
    (∀ items, isError (calculate items) = !(validate items).valid) ∧
    (∀ items, (validate items).valid = false →
      calculate items = Except.error
        ("Invalid input: " ++ String.intercalate ", " (validate items).errors)) ∧
    (∀ items item r, item ∈ items → item.gst_rate = some r → r ∉ VALID_RATES →
      isError (calculate items) = true) ∧
    (validate []).valid = false ∧ (validate []).errors ≠ [] := by
  have main1 : ∀ items, isError (calculate items) = !(validate items).valid := by
    intro items
    by_cases hv : (validate items).valid <;> simp [calculate, hv, isError]
  refine ⟨main1, ?_, ?_, rfl, by simp [validate]⟩
  · intro items hv
    simp [calculate, hv]
  · intro items item r hmem hgst hnr
    have hne : items ≠ [] := List.ne_nil_of_mem hmem
    have hloop := validateLoop_ne_nil items item r 0 hmem hgst hnr
    have hv : (validate items).valid = false := by
      simp [validate, hne, hloop]
    rw [main1 items, hv]
    rfl

/-- Concrete instance of `gst_calculate_raises_iff_invalid`: GST rate 99
fails for any price/quantity, and the empty list raises the empty-list
violation. -/
theorem gst_calculate_raises_witness :
    isError (calculate [⟨some "Item", some 1000, some 1, some 99⟩]) = true ∧
    calculate [] = Except.error "Invalid input: Items list cannot be empty" := by
  constructor
  · exact gst_calculate_raises_iff_invalid.2.2.1
      [⟨some "Item", some 1000, some 1, some 99⟩]
      ⟨some "Item", some 1000, some 1, some 99⟩ 99 (by simp) rfl
      (by with_unfolding_all decide)
  · have h := gst_calculate_raises_iff_invalid.2.1 [] rfl
    rw [h]; with_unfolding_all rfl

end GSTCalculator

/-! ## Theorems: the Search Agent (claim C8) -/

namespace SearchAgent

/-- C8 as stated is false: with filters `payment_statuses=["Paid"]` and
`min_amount=10000` on the two-invoice fixture, `advanced_search` does not
return exactly the Paid invoice — both grand totals (2360 and 5600) are
below 10000, so the amount filter empties the collection before the
status filter runs. -/
theorem advanced_search_claim_counterexample :
    advanced_search fixtureEnv [paidInvoice, pendingInvoice] fixtureFilters ≠
      [paidInvoice] := by
  have h : advanced_search fixtureEnv [paidInvoice, pendingInvoice] fixtureFilters = [] := by
    with_unfolding_all rfl
  rw [h]
  simp

/-- C8 (amended): on the fixture, the claim's filter dictionary returns no
invoices (both grand totals are below the 10000 minimum); with a minimum
the Paid invoice clears (2000), the same pipeline returns exactly the
Paid invoice. -/
theorem advanced_search_fixture :
    advanced_search fixtureEnv [paidInvoice, pendingInvoice] fixtureFilters = [] ∧
    advanced_search fixtureEnv [paidInvoice, pendingInvoice]
      { payment_statuses := some ["Paid"], min_amount := some 2000 } = [paidInvoice] :=
  ⟨by with_unfolding_all rfl, by with_unfolding_all rfl⟩

end SearchAgent

/-! ## Theorems: the Security Agent (claim C9) -/

namespace SecurityAgent

theorem rate_limits_default_lookup : RATE_LIMITS.lookup "default" = some ⟨100, 60⟩ := by
  with_unfolding_all rfl

/-- C9: a blocked identifier is always rejected with retry-after 3600
regardless of its request history; an unblocked identifier with (at
least) 100 stored request timestamps inside the current 60-second window
is rejected with a positive retry-after on its next `default` check; and
once every stored timestamp is a full window or more in the past, the
next check is accepted again. -/
theorem check_rate_limit_spec :
    (∀ st identifier limit_type now, identifier ∈ st.blocked_ips →
      check_rate_limit st identifier limit_type now =
        ({ allowed := false, reason := some "IP blocked", retry_after := some 3600 }, st)) ∧
    (∀ st identifier now, identifier ∉ st.blocked_ips →
      100 ≤ ((getCounts st identifier).filter (fun t => now - 60 < t)).length →
      (check_rate_limit st identifier "default" now).1.allowed = false ∧
      ∃ r, (check_rate_limit st identifier "default" now).1.retry_after = some r ∧ 0 < r) ∧
    (∀ st identifier now, identifier ∉ st.blocked_ips →
      (∀ t ∈ getCounts st identifier, t ≤ now - 60) →
      (check_rate_limit st identifier "default" now).1.allowed = true) := by
  refine ⟨?_, ?_, ?_⟩
  · intro st identifier limit_type now hb
    simp [check_rate_limit, hb]
  · intro st identifier now hnb hcount
    have hc : ((getCounts st identifier).filter
        (fun t => now - ((60 : ℕ) : ℚ) < t)).length = ((getCounts st identifier).filter
        (fun t => now - 60 < t)).length := by norm_num
    simp only [check_rate_limit, hnb, ite_false, if_false,
      rate_limits_default_lookup, Option.getD_some]
    rw [hc, if_pos hcount]
    refine ⟨rfl, max (pyTrunc _) 1, rfl, ?_⟩
    exact lt_of_lt_of_le one_pos (le_max_right _ 1)
  · intro st identifier now hnb hall
    have hkept : (getCounts st identifier).filter
        (fun t => now - ((60 : ℕ) : ℚ) < t) = [] := by
      rw [List.filter_eq_nil_iff]
      intro t ht
      simp only [decide_eq_true_eq, not_lt]
      have h60 : ((60 : ℕ) : ℚ) = 60 := by norm_num
      rw [h60]
      linarith [hall t ht]
    simp only [check_rate_limit, rate_limits_default_lookup, Option.getD_some]
    rw [if_neg hnb, hkept]
    simp


set_option maxRecDepth 4000 in
/-- Concrete instance of `check_rate_limit_spec`: a blocked IP is refused
with retry-after 3600; an identifier with 100 requests stored at time 0
is refused at time 30 (mid-window) with retry-after 30; one with a single
request at time 0 is accepted again at time 61 (window elapsed). -/
theorem check_rate_limit_spec_witness :
    (check_rate_limit ⟨[], ["10.0.0.1"]⟩ "10.0.0.1" "default" 0).1.allowed = false ∧
    (check_rate_limit ⟨[], ["10.0.0.1"]⟩ "10.0.0.1" "default" 0).1.retry_after = some 3600 ∧
    (check_rate_limit ⟨[("client", List.replicate 100 0)], []⟩ "client" "default" 30).1.allowed
      = false ∧
    (check_rate_limit ⟨[("client", List.replicate 100 0)], []⟩ "client" "default" 30).1.retry_after
      = some 30 ∧
    (check_rate_limit ⟨[("client", [0])], []⟩ "client" "default" 61).1.allowed = true := by
  have h1 := check_rate_limit_spec.1 ⟨[], ["10.0.0.1"]⟩ "10.0.0.1" "default" 0 (by simp)
  have h2 := check_rate_limit_spec.2.1 ⟨[("client", List.replicate 100 0)], []⟩ "client" 30
    (by simp) (by with_unfolding_all decide)
  have h3 := check_rate_limit_spec.2.2 ⟨[("client", [0])], []⟩ "client" 61
    (by simp) (by with_unfolding_all decide)
  exact ⟨by rw [h1], by rw [h1], h2.1, by with_unfolding_all rfl, h3⟩

end SecurityAgent

/-! ## Theorems: the Payment Ledger (claims C3 and C10) -/

theorem updateFirst_no_match {α : Type} (p : α → Bool) (f : α → α) (l : List α)
    (h : ∀ x ∈ l, p x = false) : updateFirst p f l = l := by
  induction l with
  | nil => rfl
  | cons x xs ih =>
      rw [updateFirst, if_neg (by simp [h x (by simp)])]
      rw [ih (fun y hy => h y (by simp [hy]))]

theorem updateFirst_append {α : Type} (p : α → Bool) (f : α → α)
    (pre post : List α) (a : α)
    (hpre : ∀ x ∈ pre, p x = false) (ha : p a = true) :
    updateFirst p f (pre ++ a :: post) = pre ++ f a :: post := by
  induction pre with
  | nil => simp [updateFirst, ha]
  | cons x xs ih =>
      rw [List.cons_append, updateFirst, if_neg (by simp [hpre x (by simp)]),
        ih (fun y hy => hpre y (by simp [hy])), List.cons_append]

theorem find?_append_first {α : Type} (p : α → Bool) (pre post : List α) (a : α)
    (hpre : ∀ x ∈ pre, p x = false) (ha : p a = true) :
    (pre ++ a :: post).find? p = some a := by
  induction pre with
  | nil => rw [List.nil_append]; exact List.find?_cons_of_pos post ha
  | cons x xs ih =>
      rw [List.cons_append,
        List.find?_cons_of_neg _ (by simp [hpre x (by simp)])]
      exact ih (fun y hy => hpre y (by simp [hy]))

namespace PaymentOperations

theorem get_total_paid_append (db db2 : DBState) (iid : ℕ) (pay : Payment)
    (h2 : db2.payments = db.payments ++ [pay]) (hpid : pay.invoice_id = iid) :
    get_total_paid db2 iid = get_total_paid db iid + pay.amount := by
  unfold get_total_paid
  rw [h2, List.filter_append, List.map_append, List.sum_append]
  simp [hpid]

theorem add_payment_step (db : DBState) (pre post : List Invoice) (inv0 : Invoice)
    (iid : ℕ) (a : ℚ) (m tid nts d t : String)
    (hdb : db.invoices = pre ++ inv0 :: post)
    (hpre : ∀ x ∈ pre, (x.id == iid) = false)
    (hid : inv0.id = iid) :
    (add_payment db iid a m tid nts d t).2 =
      { db with
        invoices := pre ++
          { inv0 with
            payment_status := statusFor (get_total_paid db iid + a) inv0.grand_total
            payment_method := some m } :: post
        payments := db.payments ++
          [⟨db.payments.length + 1, iid, d, t, a, m, tid, nts⟩] } := by
  unfold add_payment
  simp only [hdb]
  rw [updateFirst_append _ _ pre post inv0 hpre (by simp [hid])]

theorem runPayments_spec (pays : List (ℚ × String)) (iid : ℕ) :
    ∀ (db : DBState) (pre post : List Invoice) (inv0 : Invoice),
    db.invoices = pre ++ inv0 :: post →
    (∀ x ∈ pre, (x.id == iid) = false) →
    inv0.id = iid →
    ∃ invF, (runPayments db iid pays).invoices = pre ++ invF :: post ∧
      invF.id = iid ∧ invF.grand_total = inv0.grand_total ∧
      get_total_paid (runPayments db iid pays) iid =
        get_total_paid db iid + (pays.map Prod.fst).sum ∧
      (pays = [] → invF = inv0) ∧
      (∀ lastp, pays.getLast? = some lastp →
        invF.payment_status =
          statusFor (get_total_paid db iid + (pays.map Prod.fst).sum) inv0.grand_total ∧
        invF.payment_method = some lastp.2) := by
  induction pays with
  | nil =>
      intro db pre post inv0 hdb hpre hid
      exact ⟨inv0, hdb, hid, rfl, by simp [runPayments], fun _ => rfl,
        fun lastp hl => by simp at hl⟩
  | cons pr rest ih =>
      intro db pre post inv0 hdb hpre hid
      obtain ⟨a, m⟩ := pr
      have hstep := add_payment_step db pre post inv0 iid a m "" "" "" "" hdb hpre hid
      have hdb1 : (add_payment db iid a m "" "" "" "").2.invoices =
          pre ++ ({ inv0 with
            payment_status := statusFor (get_total_paid db iid + a) inv0.grand_total
            payment_method := some m }) :: post := by
        rw [hstep]
      have htp1 : get_total_paid (add_payment db iid a m "" "" "" "").2 iid =
          get_total_paid db iid + a := by
        refine get_total_paid_append db _ iid
          ⟨db.payments.length + 1, iid, "", "", a, m, "", ""⟩ ?_ rfl
        rw [hstep]
      obtain ⟨invF, h1, h2, h3, h4, h5, h6⟩ :=
        ih (add_payment db iid a m "" "" "" "").2 pre post _ hdb1 hpre (by simp [hid])
      have hrun : runPayments db iid ((a, m) :: rest) =
          runPayments (add_payment db iid a m "" "" "" "").2 iid rest := rfl
      refine ⟨invF, by rw [hrun]; exact h1, h2, by simpa using h3, ?_, ?_, ?_⟩
      · rw [hrun, h4, htp1, List.map_cons, List.sum_cons]
        ring
      · intro hcon
        exact absurd hcon (List.cons_ne_nil _ _)
      · intro lastp hlast
        cases rest with
        | nil =>
            simp only [List.getLast?_singleton, Option.some.injEq] at hlast
            have hF := h5 rfl
            subst hF
            subst hlast
            constructor
            · show statusFor (get_total_paid db iid + a) inv0.grand_total =
                statusFor (get_total_paid db iid + ([(a, m)].map Prod.fst).sum)
                  inv0.grand_total
              congr 1
              simp
            · rfl
        | cons r rs =>
            have hl2 : (r :: rs).getLast? = some lastp := by
              rw [List.getLast?_cons_cons] at hlast
              exact hlast
            obtain ⟨hstat, hmeth⟩ := h6 lastp hl2
            refine ⟨?_, hmeth⟩
            rw [hstat, htp1]
            show statusFor (get_total_paid db iid + a + ((r :: rs).map Prod.fst).sum)
                ({ inv0 with
                  payment_status := statusFor (get_total_paid db iid + a) inv0.grand_total
                  payment_method := some m }).grand_total =
              statusFor (get_total_paid db iid + (((a, m) :: r :: rs).map Prod.fst).sum)
                inv0.grand_total
            congr 1
            · simp
              ring

theorem runPayments_append (iid : ℕ) (p1 p2 : List (ℚ × String)) :
    ∀ db, runPayments db iid (p1 ++ p2) = runPayments (runPayments db iid p1) iid p2 := by
  induction p1 with
  | nil => intro db; rfl
  | cons pr rest ih =>
      intro db
      obtain ⟨a, m⟩ := pr
      rw [List.cons_append]
      show runPayments (add_payment db iid a m "" "" "" "").2 iid (rest ++ p2) =
        runPayments (runPayments (add_payment db iid a m "" "" "" "").2 iid rest) iid p2
      exact ih _

theorem statusFor_iffs (S G : ℚ) (hG : 0 < G) (hS : 0 ≤ S) :
    (statusFor S G = "Pending" ↔ S = 0) ∧
    (statusFor S G = "Partial" ↔ 0 < S ∧ S < G) ∧
    (statusFor S G = "Paid" ↔ G ≤ S) := by
  unfold statusFor
  by_cases h1 : G ≤ S
  · rw [if_pos h1]
    refine ⟨iff_of_false (by decide) ?_, iff_of_false (by decide) ?_, iff_of_true rfl h1⟩
    · intro h0
      rw [h0] at h1
      exact absurd hG (not_lt.mpr h1)
    · intro hc
      exact absurd h1 (not_le.mpr hc.2)
  · rw [if_neg h1]
    by_cases h2 : 0 < S
    · rw [if_pos h2]
      refine ⟨iff_of_false (by decide) ?_, iff_of_true rfl ⟨h2, not_le.mp h1⟩,
        iff_of_false (by decide) h1⟩
      intro h0
      rw [h0] at h2
      exact absurd h2 (lt_irrefl 0)
    · rw [if_neg h2]
      exact ⟨iff_of_true rfl (le_antisymm (not_lt.mp h2) hS),
        iff_of_false (by decide) (fun hc => h2 hc.1),
        iff_of_false (by decide) h1⟩

/-- C3: starting from an invoice with grand total G > 0 and no payments, a
non-empty sequence of `add_payment` calls with non-negative amounts
summing to S leaves the invoice `Pending` iff S = 0, `Partial` iff
0 < S < G, `Paid` iff S ≥ G; the invoice carries the most recent
payment's method; and after any prefix of the calls the recomputed paid
total is exactly the sum of all Payment rows written so far. -/
theorem add_payment_status_machine
    (db : DBState) (pre post : List Invoice) (inv0 : Invoice) (iid : ℕ)
    (pays : List (ℚ × String)) (lastp : ℚ × String)
    (hdb : db.invoices = pre ++ inv0 :: post)
    (hpre : ∀ x ∈ pre, (x.id == iid) = false)
    (hid : inv0.id = iid)
    (hnopay : ∀ p ∈ db.payments, (p.invoice_id == iid) = false)
    (hG : 0 < inv0.grand_total)
    (hamts : ∀ pr ∈ pays, 0 ≤ pr.1)
    (hlast : pays.getLast? = some lastp) :
    ∃ invF, findInvoice (runPayments db iid pays) iid = some invF ∧
      invF.payment_method = some lastp.2 ∧
      (invF.payment_status = "Pending" ↔ (pays.map Prod.fst).sum = 0) ∧
      (invF.payment_status = "Partial" ↔
        0 < (pays.map Prod.fst).sum ∧ (pays.map Prod.fst).sum < inv0.grand_total) ∧
      (invF.payment_status = "Paid" ↔ inv0.grand_total ≤ (pays.map Prod.fst).sum) ∧
      (∀ p1 p2, pays = p1 ++ p2 →
        get_total_paid (runPayments db iid p1) iid = ((p1.map Prod.fst)).sum) := by
  have hT0 : get_total_paid db iid = 0 := by
    unfold get_total_paid
    rw [List.filter_eq_nil_iff.mpr (by intro p hp; simp [hnopay p hp])]
    rfl
  have hS : 0 ≤ (pays.map Prod.fst).sum := by
    apply List.sum_nonneg
    intro x hx
    obtain ⟨pr, hpr, rfl⟩ := List.mem_map.mp hx
    exact hamts pr hpr
  obtain ⟨invF, h1, h2, h3, h4, h5, h6⟩ :=
    runPayments_spec pays iid db pre post inv0 hdb hpre hid
  obtain ⟨hstat, hmeth⟩ := h6 lastp hlast
  rw [hT0, zero_add] at hstat
  have hiffs := statusFor_iffs ((pays.map Prod.fst).sum) inv0.grand_total hG hS
  refine ⟨invF, ?_, hmeth, ?_, ?_, ?_, ?_⟩
  · unfold findInvoice
    rw [h1]
    exact find?_append_first _ pre post invF (by simpa using hpre) (by simp [h2])
  · rw [hstat]; exact hiffs.1
  · rw [hstat]; exact hiffs.2.1
  · rw [hstat]; exact hiffs.2.2
  · intro p1 p2 hsplit
    obtain ⟨_, _, _, _, ht, _⟩ := runPayments_spec p1 iid db pre post inv0 hdb hpre hid
    rw [ht, hT0, zero_add]

/-- Concrete instance of `add_payment_status_machine`, the
specification's own example: G = 1000, pay 400 (UPI) then 600 (Cash):
after the first call the invoice is Partial with total paid 400; after
the second it is Paid, stamped with method Cash, total paid 1000. -/
theorem add_payment_status_machine_witness :
    paymentStatusAt (runPayments sampleDB 1 [(400, "UPI")]) 1 = some "Partial" ∧
    get_total_paid (runPayments sampleDB 1 [(400, "UPI")]) 1 = 400 ∧
    paymentStatusAt (runPayments sampleDB 1 [(400, "UPI"), (600, "Cash")]) 1 = some "Paid" ∧
    paymentMethodAt (runPayments sampleDB 1 [(400, "UPI"), (600, "Cash")]) 1 =
      some (some "Cash") ∧
    get_total_paid (runPayments sampleDB 1 [(400, "UPI"), (600, "Cash")]) 1 = 1000 := by
  have h := add_payment_status_machine sampleDB [] [] sampleInvoice 1
    [(400, "UPI"), (600, "Cash")] (600, "Cash") rfl (by simp) rfl
    (by intro p hp; simp [sampleDB] at hp) (by norm_num [sampleInvoice])
    (by norm_num) rfl
  obtain ⟨invF, hfind, hmeth, _, _, hpaid, hrecomp⟩ := h
  have htot1 : get_total_paid (runPayments sampleDB 1 [(400, "UPI")]) 1 = 400 := by
    have := hrecomp [(400, "UPI")] [(600, "Cash")] rfl
    simpa using this
  refine ⟨by with_unfolding_all rfl, htot1, ?_, ?_, ?_⟩
  · rw [paymentStatusAt, hfind]
    show some invF.payment_status = some "Paid"
    rw [hpaid.mpr (by norm_num [sampleInvoice, sampleDB])]
  · rw [paymentMethodAt, hfind]
    show some invF.payment_method = some (some "Cash")
    rw [hmeth]
  · have := hrecomp [(400, "UPI"), (600, "Cash")] [] (by simp)
    rw [this]
    norm_num

/-- C10: `add_payment` with an `invoice_id` for which no Invoice row
exists still inserts and commits the Payment row, leaves every invoice
untouched (only the status update is skipped), returns the payment
without any error, and the orphan payment is thereafter included in
`get_total_paid` for that id. -/
theorem add_payment_orphan (db : DBState) (iid : ℕ) (a : ℚ) (m tid nts d t : String)
    (h : ∀ inv ∈ db.invoices, (inv.id == iid) = false) :
    (add_payment db iid a m tid nts d t).1 =
      ⟨db.payments.length + 1, iid, d, t, a, m, tid, nts⟩ ∧
    (add_payment db iid a m tid nts d t).2.payments =
      db.payments ++ [(add_payment db iid a m tid nts d t).1] ∧
    (add_payment db iid a m tid nts d t).2.invoices = db.invoices ∧
    get_total_paid (add_payment db iid a m tid nts d t).2 iid =
      get_total_paid db iid + a := by
  refine ⟨rfl, rfl, ?_, ?_⟩
  · show updateFirst (fun inv => inv.id == iid) _ db.invoices = db.invoices
    exact updateFirst_no_match _ _ db.invoices h
  · exact get_total_paid_append db _ iid
      ⟨db.payments.length + 1, iid, d, t, a, m, tid, nts⟩ rfl rfl

/-- Concrete instance of `add_payment_orphan`: paying 250 against the
non-existent invoice id 42 of an empty database records a durable orphan
Payment row and counts it in `get_total_paid`. -/
theorem add_payment_orphan_witness :
    (add_payment {} 42 250 "UPI" "" "" "2025-01-01" "10:00:00").1 =
      ⟨1, 42, "2025-01-01", "10:00:00", 250, "UPI", "", ""⟩ ∧
    (add_payment {} 42 250 "UPI" "" "" "2025-01-01" "10:00:00").2.invoices = [] ∧
    (add_payment {} 42 250 "UPI" "" "" "2025-01-01" "10:00:00").2.payments =
      [⟨1, 42, "2025-01-01", "10:00:00", 250, "UPI", "", ""⟩] ∧
    get_total_paid (add_payment {} 42 250 "UPI" "" "" "2025-01-01" "10:00:00").2 42 = 250 := by
  have h := add_payment_orphan {} 42 250 "UPI" "" "" "2025-01-01" "10:00:00" (by simp)
  refine ⟨h.1, h.2.2.1.trans rfl, ?_, ?_⟩
  · rw [h.2.1, h.1]
    rfl
  · rw [h.2.2.2]
    with_unfolding_all rfl

end PaymentOperations

/-! ## Theorems: invoice numbering through the persisted orchestrator (claim C5) -/

namespace InvoiceAgentDB

/-- **C5.** The claim describes N sequential invoice creations through the
persisted orchestrator producing numbers with trailing integers 1000+(N-1),
unique and fetchable by number.  In the code this is unrealizable:
`create_invoice` never yields an invoice and never changes the store,
because step 3 constructs `GSTCalculator(base_price=..., gst_rate=...,
quantity=...)` against the stateless class whose `__init__(self)` takes no
keyword arguments — on every input that passes validation the call raises
`TypeError` into the caller (no try/except covers it).  Only the claim's
`get_next_invoice_number` sentence holds: 1000 when no invoice exists or
the trailing segment of the last number does not parse, otherwise that
trailing integer plus one. -/
theorem invoice_numbering_unrealizable :
    (∀ env customer items notes db,
      (∀ inv, (create_invoice env customer items notes db).1 ≠ .ok (.ok inv)) ∧
      (create_invoice env customer items notes db).2 = db) ∧
    (∀ env customer items notes db,
      (InvoiceValidator.validate_customer_details customer).1 = true →
      items ≠ [] →
      validateItemsLoop 0 items = none →
      (create_invoice env customer items notes db).1 = .error (.typeError
        "__init__() got an unexpected keyword argument \x27base_price\x27")) ∧
    (∀ db, db.invoices.getLast? = none →
      DatabaseOperations.get_next_invoice_number db = 1000) ∧
    (∀ db inv, db.invoices.getLast? = some inv →
      parseTrailing inv.invoice_number = none →
      DatabaseOperations.get_next_invoice_number db = 1000) ∧
    (∀ db inv n, db.invoices.getLast? = some inv →
      parseTrailing inv.invoice_number = some n →
      DatabaseOperations.get_next_invoice_number db = n + 1) := by
  refine ⟨?_, ?_, ?_, ?_, ?_⟩
  · intro env customer items notes db
    constructor
    · intro inv
      simp only [create_invoice]
      split
      · simp
      · split
        · simp
        · split
          · simp
          · split
            · simp
            · split
              · simp
              · simp
    · simp only [create_invoice]
      split
      · rfl
      · split
        · rfl
        · split
          · rfl
          · split
            · rfl
            · split
              · rfl
              · rfl
  · intro env customer items notes db h1 h2 h3
    cases items with
    | nil => exact absurd rfl h2
    | cons item rest =>
        simp [create_invoice, h1, h3]
        rfl
  · intro db hdb
    unfold DatabaseOperations.get_next_invoice_number
    rw [hdb]
  · intro db inv hlast hparse
    unfold DatabaseOperations.get_next_invoice_number
    rw [hlast]
    show (match parseTrailing inv.invoice_number with
      | some last_number => last_number + 1
      | none => 1000) = 1000
    rw [hparse]
  · intro db inv n hlast hparse
    unfold DatabaseOperations.get_next_invoice_number
    rw [hlast]
    show (match parseTrailing inv.invoice_number with
      | some last_number => last_number + 1
      | none => 1000) = n + 1
    rw [hparse]

/-- Concrete instance of `invoice_numbering_unrealizable`: the sample valid
request raises the `TypeError` instead of creating an invoice, and the next
counter is 1000 on an empty store, 1001 after an invoice numbered
INV-2025-1000, and falls back to 1000 when the trailing segment is
unparsable. -/
theorem invoice_numbering_unrealizable_witness :
    (∀ inv, (create_invoice sampleEnv sampleRequest.customer sampleRequest.items
        sampleRequest.notes {}).1 ≠ .ok (.ok inv)) ∧
    (create_invoice sampleEnv sampleRequest.customer sampleRequest.items
        sampleRequest.notes {}).1 = .error (.typeError
      "__init__() got an unexpected keyword argument \x27base_price\x27") ∧
    DatabaseOperations.get_next_invoice_number {} = 1000 ∧
    DatabaseOperations.get_next_invoice_number
      { invoices := [PaymentOperations.sampleInvoice] } = 1001 ∧
    DatabaseOperations.get_next_invoice_number
      { invoices := [{ PaymentOperations.sampleInvoice with
          invoice_number := "INVOICE".data }] } = 1000 := by
  have h := invoice_numbering_unrealizable
  refine ⟨(h.1 sampleEnv sampleRequest.customer sampleRequest.items
      sampleRequest.notes {}).1, ?_, h.2.2.1 {} rfl, ?_, ?_⟩
  · exact h.2.1 sampleEnv sampleRequest.customer sampleRequest.items
      sampleRequest.notes {} (by with_unfolding_all decide)
      (by with_unfolding_all decide) (by with_unfolding_all decide)
  · exact h.2.2.2.2 { invoices := [PaymentOperations.sampleInvoice] }
      PaymentOperations.sampleInvoice 1000 rfl (by with_unfolding_all rfl)
  · exact h.2.2.2.1 { invoices := [{ PaymentOperations.sampleInvoice with
        invoice_number := "INVOICE".data }] }
      { PaymentOperations.sampleInvoice with invoice_number := "INVOICE".data } rfl
      (by with_unfolding_all rfl)

end InvoiceAgentDB

/-! ## Theorems: construction of the persisted orchestrator (claim C2) -/

/-- **C2.** The claim says every public method of the persisted Invoice
Orchestrator, construction included, returns a success/error dictionary and
never raises. In the code, `InvoiceAgentDB.__init__` calls
`GSTCalculator(base_price=0, gst_rate=0)` while `GSTCalculator.__init__(self)`
accepts no keyword arguments, so constructing the agent raises `TypeError`
to the caller and no public method is ever reachable: the claim fails. -/
theorem InvoiceAgentDB.init_raises :
    InvoiceAgentDB.initAgent = .error (.typeError
      "__init__() got an unexpected keyword argument \x27base_price\x27") := rfl

/-! ## Theorems: the Audit Agent module import (claim C6) -/

/-- **C6.** The claim says `log_action` always returns a result dict and never
raises into the caller. But audit_agent.py line 17 imports `AuditLog` from
`app.models.database`, and `AuditLog` is not among the names database.py
binds, so importing the Audit Agent module raises `ImportError` into the
importer and `log_action` can never run: the claim fails at module load. -/
theorem AuditAgent.log_action_unreachable :
    auditAgentModuleImport = .error (.importError
      "cannot import name \x27AuditLog\x27 from \x27app.models.database\x27") ∧
    "AuditLog" ∉ databaseModuleNames := ⟨rfl, by decide⟩

/-! ## Theorems: the Authentication Agent (claim C7) -/

namespace AuthAgent

theorem find?_append_singleton {α : Type} (p : α → Bool) (l : List α) (a : α)
    (h : l.find? p = none) (ha : p a = true) : (l ++ [a]).find? p = some a :=
  find?_append_first p l [] a (by simpa using List.find?_eq_none.mp h) ha

/-- **C7.** Authentication round-trip: on a store containing neither username
u nor email e, register_user(u, e, p) succeeds; login_user(u, p) then
succeeds with a token that verify_token resolves to username u (with the
registered role); login with any other password fails with the generic
invalid-credentials message; and any token whose exp claim is in the past
fails verification. -/
theorem auth_round_trip (db : AuthDB)
    (u e p full_name role : String) (salt : Nat) (now : ℚ)
    (hu : db.users.find? (fun w => w.username == u) = none)
    (he : db.users.find? (fun w => w.email == e) = none) :
    ∃ user db2,
      register_user db u e p full_name role salt = (.ok user, db2) ∧
      (∃ tok, login_user db2 u p now = .ok tok ∧
        verify_token tok now = some ⟨u, role⟩) ∧
      (∀ p2, p2 ≠ p →
        login_user db2 u p2 now = .error "Invalid username or password") ∧
      (∀ tok now2, tok.payload.exp < now2 → verify_token tok now2 = none) := by
  have hrowu : ((registeredRow u e p full_name role salt).username == u) = true := by
    simp [registeredRow]
  have hfind : (db.users ++ [registeredRow u e p full_name role salt]).find?
      (fun w => w.username == u) = some (registeredRow u e p full_name role salt) :=
    find?_append_singleton _ db.users _ hu hrowu
  refine ⟨registeredRow u e p full_name role salt,
    { users := db.users ++ [registeredRow u e p full_name role salt] },
    ?_, ?_, ?_, ?_⟩
  · simp only [register_user, hu, he]
  · refine ⟨create_access_token
      { sub := some u, role := some role, email := some e, exp := 0 } now, ?_, ?_⟩
    · unfold login_user
      rw [hfind]
      simp [registeredRow, verify_password, bcryptCheckpw, bcryptHashpw,
        sha256hex, hash_password]
    · unfold verify_token jwtDecode create_access_token jwtEncode
      rw [if_pos ⟨rfl, by
        show now ≤ now + ACCESS_TOKEN_EXPIRE_MINUTES * 60
        unfold ACCESS_TOKEN_EXPIRE_MINUTES
        linarith⟩]
      rfl
  · intro p2 hp2
    have hvp : verify_password p2
        (registeredRow u e p full_name role salt).hashed_password = false := by
      simp only [registeredRow, verify_password, bcryptCheckpw, bcryptHashpw,
        sha256hex, hash_password]
      exact beq_eq_false_iff_ne.mpr (fun h => hp2 h.symm)
    unfold login_user
    rw [hfind]
    simp [hvp]
  · intro tok now2 hexp
    unfold verify_token jwtDecode
    rw [if_neg (fun hcontra => absurd hexp (not_lt.mpr hcontra.2))]

/-- Concrete instance of `auth_round_trip`: registering bunny on an empty
store, then logging in at clock 0. -/
theorem auth_round_trip_witness :
    (({} : AuthDB).users.find? (fun w => w.username == "bunny") = none) ∧
    (∃ user db2, register_user {} "bunny" "bunny@example.com" "Bunny@123"
        "Bunny Rangu" "user" 0 = (.ok user, db2) ∧
      (∃ tok, login_user db2 "bunny" "Bunny@123" 0 = .ok tok ∧
        verify_token tok 0 = some ⟨"bunny", "user"⟩) ∧
      (∀ p2, p2 ≠ "Bunny@123" →
        login_user db2 "bunny" p2 0 = .error "Invalid username or password") ∧
      (∀ tok now2, tok.payload.exp < now2 → verify_token tok now2 = none)) :=
  ⟨rfl, auth_round_trip {} "bunny" "bunny@example.com" "Bunny@123"
      "Bunny Rangu" "user" 0 0 rfl rfl⟩

end AuthAgent
